import Mathlib

/-
Verification of the conversational adapter and the submit/reveal controller
of the GTFamilyAi single-page app (src/HTML.js).

The embedding follows the source directly:
  * `ChatAIClass.getResponse` embeds the adapter method at src/HTML.js lines 79-90.
    The external ChatManager handle is modelled by its append-only history; the
    outcome of the single awaited `getCharacterResponse` call is a parameter of
    type `Except EngineError String` (the engine is external and opaque).
    Every interaction with the handle is also recorded in an event trace so that
    ordering and counting claims can be stated.
  * `onClick` embeds the submit handler of the App component (lines 342-369):
    the trim/isLoading guard, the state resets, the awaited adapter call, the
    creation of the reveal interval on success, the catch branch, and the
    `finally` that resets isLoading.
  * `RevealTimer.fire` embeds one tick of the interval callback created at
    lines 355-362, and `tickAt` fires the k-th live interval. The set of live
    intervals is part of the modelled state, since the code never stores the
    interval id outside the closure.
-/

namespace GTFamily

/-- Role tag of a conversation turn, as passed to chatManager.addMessage. -/
inductive Role where
  | user
  | assistant
deriving DecidableEq, Repr

/-- One turn of the engine history: a role and a text payload. -/
structure Turn where
  role : Role
  text : String
deriving DecidableEq, Repr

/-- The fixed behavior description configuring the engine persona
(src/HTML.js lines 40-50). -/
def AI_BEHAVIOR_DESCRIPTION : String :=
  "\nYou are a compassionate and knowledgeable AI assistant dedicated to helping people with any challenge \nor question they face. Your responses should be:\n1. Empathetic and understanding\n2. Clear and actionable\n3. Well-structured with practical steps when appropriate\n4. Backed by general best practices\n5. Safe and responsible\nKeep responses concise but thorough. If a request requires professional help (medical, legal, etc.),\nkindly suggest seeking appropriate professional assistance while providing general information.\n"

/-- The externally supplied ChatManager handle, modelled by the description it
was constructed with and its append-only turn history. -/
structure ChatManager where
  description : String
  history : List Turn
deriving DecidableEq, Repr

/-- Embeds chatManager.addMessage(role, text): appends one turn to the history. -/
def ChatManager.addMessage (cm : ChatManager) (role : Role) (text : String) : ChatManager :=
  { cm with history := cm.history ++ [⟨role, text⟩] }

/-- Embeds the ChatAIClass constructor: new ChatManager(AI_BEHAVIOR_DESCRIPTION)
with an initially empty history. -/
def ChatAIClass.init : ChatManager :=
  ⟨AI_BEHAVIOR_DESCRIPTION, []⟩

/-- Failure of the awaited engine reply call (the awaited promise rejecting).
The source treats it as an opaque value, so one string field suffices. -/
structure EngineError where
  msg : String
deriving DecidableEq, Repr

/-- Observable interactions with the engine handle, recorded in order, used to
state ordering and round-trip-count claims. -/
inductive EngineEvent where
  | append (role : Role) (text : String)
  | request (mode : String)
deriving DecidableEq, Repr

/-- Embeds ChatAIClass.getResponse (src/HTML.js lines 79-90):
appends a user turn carrying the prompt, awaits one
chatManager.getCharacterResponse of mode classify (its outcome is the
`engine` parameter), and on success appends an assistant turn carrying the
reply and returns it; a rejection propagates unchanged. Returns the result,
the updated handle, and the trace of engine interactions. -/
def ChatAIClass.getResponse (cm : ChatManager) (engine : Except EngineError String)
    (prompt : String) : Except EngineError String × ChatManager × List EngineEvent :=
  let cm1 := cm.addMessage Role.user prompt
  match engine with
  | Except.error e =>
      (Except.error e, cm1,
        [EngineEvent.append Role.user prompt, EngineEvent.request "classify"])
  | Except.ok response =>
      (Except.ok response, cm1.addMessage Role.assistant response,
        [EngineEvent.append Role.user prompt, EngineEvent.request "classify",
         EngineEvent.append Role.assistant response])

/-- Number of reply requests in an engine-interaction trace. -/
def requestCount (evs : List EngineEvent) : Nat :=
  (evs.filter fun ev => match ev with
    | EngineEvent.request _ => true
    | _ => false).length

/-- Embeds result.slice(0, n): the first n characters of a string. -/
def jsSlice (s : String) (n : Nat) : String := String.mk (s.data.take n)

/-- Embeds the JS String.prototype.trim builtin used by the guard at
src/HTML.js line 343: remove leading and trailing whitespace. -/
def jsTrim (s : String) : String :=
  String.mk (((s.data.dropWhile Char.isWhitespace).reverse.dropWhile
    Char.isWhitespace).reverse)

/-- One pending setInterval reveal timer (the closure at src/HTML.js lines
355-362): the captured reply string `result` and the mutable counter `i`. -/
structure RevealTimer where
  result : String
  i : Nat
deriving DecidableEq, Repr

/-- The React state of the App component (prompt, response, isLoading,
displayText, src/HTML.js lines 100-103) together with the persistent
ChatAIClass ref (line 104) and the list of live reveal intervals. -/
structure AppState where
  prompt : String
  response : String
  isLoading : Bool
  displayText : String
  chat : ChatManager
  timers : List RevealTimer
deriving DecidableEq, Repr

/-- The state right after mount: all text state empty, not loading, a fresh
ChatAIClass, no live interval. -/
def AppState.init : AppState :=
  ⟨"", "", false, "", ChatAIClass.init, []⟩

/-- Embeds the input onChange handler: setPrompt(e.target.value). -/
def setPrompt (s : AppState) (v : String) : AppState := { s with prompt := v }

/-- Embeds the button onClick handler (src/HTML.js lines 342-369).
The guard returns early when the trimmed prompt is empty or isLoading is true.
Otherwise isLoading is set, response and displayText are cleared, the adapter
is awaited with the untrimmed prompt (the `engine` parameter is the outcome of
the awaited call), on success the reply is stored and a new reveal interval is
scheduled (the old ones are not touched), on failure the error is only logged,
and the finally clause resets isLoading in both branches. The Bool reports
whether ChatAIClass.getResponse was invoked. -/
def onClick (engine : Except EngineError String) (s : AppState) : AppState × Bool :=
  if jsTrim s.prompt = "" ∨ s.isLoading = true then (s, false)
  else
    let s1 := { s with isLoading := true, response := "", displayText := "" }
    match ChatAIClass.getResponse s1.chat engine s1.prompt with
    | (Except.ok r, cm1, _) =>
        ({ s1 with chat := cm1, response := r,
                   timers := s1.timers ++ [⟨r, 0⟩], isLoading := false }, true)
    | (Except.error _, cm1, _) =>
        ({ s1 with chat := cm1, isLoading := false }, true)

/-- One tick of an interval callback (src/HTML.js lines 356-361): while the
counter has not passed the reply length, write the prefix slice and advance;
otherwise clear the interval (return none) leaving displayText unchanged. -/
def RevealTimer.fire (t : RevealTimer) (s : AppState) : AppState × Option RevealTimer :=
  if t.i ≤ t.result.length then
    ({ s with displayText := jsSlice t.result t.i }, some ⟨t.result, t.i + 1⟩)
  else
    (s, none)

/-- Fire the k-th live interval: update the state and either keep the advanced
timer or drop it when it cleared itself. Out-of-range k changes nothing. -/
def tickAt (s : AppState) (k : Nat) : AppState :=
  match s.timers.get? k with
  | none => s
  | some t =>
      match RevealTimer.fire t s with
      | (s2, some t2) => { s2 with timers := s.timers.set k t2 }
      | (s2, none) => { s2 with timers := s.timers.eraseIdx k }

/-- The whole sequence of values an interval writes to displayText, from its
current counter until it clears itself. -/
def timerWrites (t : RevealTimer) : List String :=
  if _h : t.i ≤ t.result.length then
    jsSlice t.result t.i :: timerWrites ⟨t.result, t.i + 1⟩
  else []
termination_by t.result.length + 1 - t.i
decreasing_by simp_wf; omega

/-- Embeds the useEffect cleanup (src/HTML.js lines 242-252): it removes the
resize listener and disposes graphics resources, none of which is part of the
conversation state, and it contains no clearInterval, so on the modelled state
it changes nothing. -/
def unmountCleanup (s : AppState) : AppState := s

/-- C1: on a successful engine reply r, getResponse appends the user turn
carrying the prompt, issues exactly one reply request, then appends the
assistant turn carrying r, in this order, and returns r itself. -/
theorem C1_getResponse_success (cm : ChatManager) (prompt r : String) :
    ChatAIClass.getResponse cm (Except.ok r) prompt =
      (Except.ok r,
       ⟨cm.description, cm.history ++ [⟨Role.user, prompt⟩, ⟨Role.assistant, r⟩]⟩,
       [EngineEvent.append Role.user prompt, EngineEvent.request "classify",
        EngineEvent.append Role.assistant r]) := by
  simp [ChatAIClass.getResponse, ChatManager.addMessage]

/-- C2: when the awaited reply call rejects with e, getResponse propagates
exactly e, the history gains only the dangling user turn (no assistant turn),
and the trace shows a single request with no retry. -/
theorem C2_getResponse_failure (cm : ChatManager) (prompt : String) (e : EngineError) :
    ChatAIClass.getResponse cm (Except.error e) prompt =
      (Except.error e,
       ⟨cm.description, cm.history ++ [⟨Role.user, prompt⟩]⟩,
       [EngineEvent.append Role.user prompt, EngineEvent.request "classify"]) := by
  simp [ChatAIClass.getResponse, ChatManager.addMessage]

/-- C8: every getResponse call performs exactly one reply request, whatever the
outcome, and a second call with the same prompt on the resulting handle again
performs exactly one request of its own (no caching, no retry). -/
theorem C8_single_round_trip (cm : ChatManager) (prompt : String)
    (e1 e2 : Except EngineError String) :
    requestCount (ChatAIClass.getResponse cm e1 prompt).2.2 = 1 ∧
    requestCount
      (ChatAIClass.getResponse (ChatAIClass.getResponse cm e1 prompt).2.1 e2 prompt).2.2
      = 1 := by
  cases e1 <;> cases e2 <;>
    simp [ChatAIClass.getResponse, ChatManager.addMessage, requestCount]

/-- Auxiliary: unfolding equation of timerWrites as a map over a range. -/
theorem timerWrites_eq_range (R : String) :
    ∀ n i, R.length + 1 - i = n →
      timerWrites ⟨R, i⟩ = (List.range' i n).map (fun k => jsSlice R k) := by
  intro n
  induction n with
  | zero =>
      intro i hi
      rw [timerWrites]
      have h : ¬ (i ≤ R.length) := by omega
      simp [h]
  | succ n ih =>
      intro i hi
      rw [timerWrites]
      have h : i ≤ R.length := by omega
      rw [dif_pos h, ih (i + 1) (by omega), List.range'_succ]
      simp

/-- Auxiliary: slicing a string at its own length gives it back. -/
theorem jsSlice_self (R : String) : jsSlice R R.length = R := by
  cases R with
  | mk data => simp [jsSlice, String.length]

/-- C6: with a blank (empty or whitespace-only) trimmed prompt, or while
isLoading is true, the click handler is a complete no-op: the state (history,
isLoading, latestReply, revealedPrefix, promptText, timers) is returned
unchanged and getResponse is never invoked. -/
theorem C6_blank_or_loading_noop (engine : Except EngineError String) (s : AppState)
    (h : jsTrim s.prompt = "" ∨ s.isLoading = true) :
    onClick engine s = (s, false) := by
  unfold onClick
  rw [if_pos h]

/-- C6 witness: a whitespace-only prompt on the freshly mounted state is a
no-op. -/
theorem C6_blank_or_loading_noop_witness :
    onClick (Except.ok "hello") (setPrompt AppState.init "   ")
      = (setPrompt AppState.init "   ", false) :=
  C6_blank_or_loading_noop (Except.ok "hello") (setPrompt AppState.init "   ")
    (Or.inl (by decide))

/-- C7: when the engine call rejects, the handler ends with isLoading false,
latestReply and revealedPrefix empty, no reveal interval scheduled beyond the
ones already live, and the history keeps the dangling user turn; the adapter
was invoked exactly once. -/
theorem C7_failure_to_idle (s : AppState) (e : EngineError)
    (hp : ¬ jsTrim s.prompt = "") (hl : s.isLoading = false) :
    ((onClick (Except.error e) s).1).isLoading = false
    ∧ ((onClick (Except.error e) s).1).response = ""
    ∧ ((onClick (Except.error e) s).1).displayText = ""
    ∧ ((onClick (Except.error e) s).1).timers = s.timers
    ∧ ((onClick (Except.error e) s).1).chat.history
        = s.chat.history ++ [⟨Role.user, s.prompt⟩]
    ∧ (onClick (Except.error e) s).2 = true := by
  have hg : ¬ (jsTrim s.prompt = "" ∨ s.isLoading = true) := by
    simp [hp, hl]
  unfold onClick
  rw [if_neg hg]
  simp [ChatAIClass.getResponse, ChatManager.addMessage]

/-- C7 witness: a failing engine call on prompt "hi" from the mounted state. -/
theorem C7_failure_to_idle_witness :
    ((onClick (Except.error ⟨"boom"⟩) (setPrompt AppState.init "hi")).1).isLoading = false
    ∧ ((onClick (Except.error ⟨"boom"⟩) (setPrompt AppState.init "hi")).1).response = ""
    ∧ ((onClick (Except.error ⟨"boom"⟩) (setPrompt AppState.init "hi")).1).displayText = ""
    ∧ ((onClick (Except.error ⟨"boom"⟩) (setPrompt AppState.init "hi")).1).timers
        = (setPrompt AppState.init "hi").timers
    ∧ ((onClick (Except.error ⟨"boom"⟩) (setPrompt AppState.init "hi")).1).chat.history
        = (setPrompt AppState.init "hi").chat.history ++ [⟨Role.user, "hi"⟩]
    ∧ (onClick (Except.error ⟨"boom"⟩) (setPrompt AppState.init "hi")).2 = true :=
  C7_failure_to_idle (setPrompt AppState.init "hi") ⟨"boom"⟩ (by decide) (by decide)

/-- C9: an accepted submission appends a user turn carrying exactly the
untrimmed prompt string to the history (the guard tests the trimmed prompt but
the original string is forwarded verbatim). -/
theorem C9_untrimmed_forwarding (engine : Except EngineError String) (s : AppState)
    (hp : ¬ jsTrim s.prompt = "") (hl : s.isLoading = false) :
    ∃ rest, ((onClick engine s).1).chat.history
      = s.chat.history ++ (Turn.mk Role.user s.prompt :: rest) := by
  have hg : ¬ (jsTrim s.prompt = "" ∨ s.isLoading = true) := by
    simp [hp, hl]
  cases engine with
  | ok r =>
      exact ⟨[⟨Role.assistant, r⟩],
        by simp [onClick, hg, ChatAIClass.getResponse, ChatManager.addMessage]⟩
  | error e =>
      exact ⟨[],
        by simp [onClick, hg, ChatAIClass.getResponse, ChatManager.addMessage]⟩

/-- C9 witness: the prompt with surrounding whitespace is recorded untrimmed. -/
theorem C9_untrimmed_forwarding_witness :
    ∃ rest, ((onClick (Except.ok "yo") (setPrompt AppState.init "  hi  ")).1).chat.history
      = (setPrompt AppState.init "  hi  ").chat.history
        ++ (Turn.mk Role.user "  hi  " :: rest) :=
  C9_untrimmed_forwarding (Except.ok "yo") (setPrompt AppState.init "  hi  ")
    (by decide) (by decide)

/-- C10: whatever the guard outcome and the engine outcome, the click handler
never writes promptText: the prompt field after the cycle equals the prompt
field before it. -/
theorem C10_prompt_frame (engine : Except EngineError String) (s : AppState) :
    ((onClick engine s).1).prompt = s.prompt := by
  unfold onClick
  split
  · rfl
  · cases engine <;> simp [ChatAIClass.getResponse, ChatManager.addMessage]

/-- Auxiliary: length of a slice below the string length. -/
theorem jsSlice_length (R : String) (k : Nat) (h : k ≤ R.length) :
    (jsSlice R k).length = k := by
  cases R with
  | mk data =>
      simp only [jsSlice, String.length, List.length_take]
      simp only [String.length] at h
      omega

/-- C5: for a reply R of length N the reveal writes exactly N+1 successive
values, the k-th being the k-character slice of R (hence each a prefix of R),
the lengths passing through 0, 1, ..., N in order, starting at the empty
string and ending at R itself; the tick after the last write clears the
interval and leaves displayText untouched, so the value freezes at R. -/
theorem C5_reveal_sequence (R : String) :
    timerWrites ⟨R, 0⟩ = (List.range (R.length + 1)).map (fun k => jsSlice R k)
    ∧ (timerWrites ⟨R, 0⟩).length = R.length + 1
    ∧ (timerWrites ⟨R, 0⟩).map String.length = List.range (R.length + 1)
    ∧ (timerWrites ⟨R, 0⟩).head? = some ""
    ∧ (timerWrites ⟨R, 0⟩).getLast? = some R
    ∧ ∀ s : AppState, RevealTimer.fire ⟨R, R.length + 1⟩ s = (s, none) := by
  have hmain : timerWrites ⟨R, 0⟩
      = (List.range (R.length + 1)).map (fun k => jsSlice R k) := by
    rw [timerWrites_eq_range R (R.length + 1) 0 (by omega), List.range_eq_range']
  refine ⟨hmain, ?_, ?_, ?_, ?_, ?_⟩
  · rw [hmain]; simp
  · rw [hmain, List.map_map]
    have hcongr : ∀ k ∈ List.range (R.length + 1),
        (String.length ∘ fun k => jsSlice R k) k = id k := by
      intro k hk
      have hk2 : k ≤ R.length := by
        have := List.mem_range.mp hk
        omega
      simpa [Function.comp] using jsSlice_length R k hk2
    rw [List.map_congr_left hcongr, List.map_id]
  · rw [hmain, List.range_succ_eq_map]
    rfl
  · rw [hmain, List.range_succ, List.map_append]
    simp [List.getLast?_concat, jsSlice_self]
  · intro s
    have h : ¬ (R.length + 1 ≤ R.length) := by omega
    simp [RevealTimer.fire, h]

/-- C3 counterexample: right after a successful submission of "hi" answered by
"hello", the reveal is still in progress (its interval is live at counter 0
and displayText is still empty while latestReply is "hello"), yet a second
submit request is accepted, not ignored: isLoading was already reset by the
finally clause before the reveal ran. -/
theorem C3_counterexample_submit_during_reveal :
    ((onClick (Except.ok "hello") (setPrompt AppState.init "hi")).1).timers
      = [⟨"hello", 0⟩]
    ∧ ((onClick (Except.ok "hello") (setPrompt AppState.init "hi")).1).displayText = ""
    ∧ ((onClick (Except.ok "hello") (setPrompt AppState.init "hi")).1).response = "hello"
    ∧ ((onClick (Except.ok "hello") (setPrompt AppState.init "hi")).1).isLoading = false
    ∧ (onClick (Except.ok "world")
        ((onClick (Except.ok "hello") (setPrompt AppState.init "hi")).1)).2 = true := by
  decide

/-- C3 amended: a submit request is accepted exactly when the trimmed prompt
is non-empty and isLoading is false; isLoading is already false again when the
handler finishes (the finally clause runs before the reveal does), so a
submission during the Revealing phase is permitted rather than ignored. -/
theorem C3_amended_guard (engine : Except EngineError String) (s : AppState)
    (h : s.isLoading = false) :
    ((onClick engine s).2 = true ↔ ¬ jsTrim s.prompt = "")
    ∧ ((onClick engine s).1).isLoading = false := by
  unfold onClick
  by_cases hp : jsTrim s.prompt = ""
  · rw [if_pos (Or.inl hp)]
    simp [hp, h]
  · have hg : ¬ (jsTrim s.prompt = "" ∨ s.isLoading = true) := by simp [hp, h]
    rw [if_neg hg]
    cases engine <;> simp [ChatAIClass.getResponse, hp]

/-- C3 amended, witness: instantiated mid-reveal, right after the first
successful submission, where the second submit is indeed accepted. -/
theorem C3_amended_guard_witness :
    ((onClick (Except.ok "world")
        ((onClick (Except.ok "hello") (setPrompt AppState.init "hi")).1)).2 = true
      ↔ ¬ jsTrim ((onClick (Except.ok "hello") (setPrompt AppState.init "hi")).1).prompt
          = "")
    ∧ ((onClick (Except.ok "world")
        ((onClick (Except.ok "hello") (setPrompt AppState.init "hi")).1)).1).isLoading
        = false :=
  C3_amended_guard (Except.ok "world")
    ((onClick (Except.ok "hello") (setPrompt AppState.init "hi")).1) (by decide)

/-- C4, code behavior at the failing input: submit "a" answered by "hello";
after two reveal ticks displayText is "h"; submitting again (answered by "xy")
resets displayText but leaves the old interval scheduled at counter 2 next to
the new one, the component teardown does not remove it either, and its very
next tick grows the old reveal to "he" even though a new cycle has begun. -/
theorem C4_old_interval_not_canceled :
    (((onClick (Except.ok "xy")
        (tickAt (tickAt ((onClick (Except.ok "hello")
          (setPrompt AppState.init "a")).1) 0) 0)).1).timers
      = [⟨"hello", 2⟩, ⟨"xy", 0⟩])
    ∧ ((tickAt (tickAt ((onClick (Except.ok "hello")
          (setPrompt AppState.init "a")).1) 0) 0).displayText = "h")
    ∧ (((onClick (Except.ok "xy")
        (tickAt (tickAt ((onClick (Except.ok "hello")
          (setPrompt AppState.init "a")).1) 0) 0)).1).displayText = "")
    ∧ ((unmountCleanup ((onClick (Except.ok "xy")
        (tickAt (tickAt ((onClick (Except.ok "hello")
          (setPrompt AppState.init "a")).1) 0) 0)).1)).timers ≠ [])
    ∧ ((tickAt ((onClick (Except.ok "xy")
        (tickAt (tickAt ((onClick (Except.ok "hello")
          (setPrompt AppState.init "a")).1) 0) 0)).1) 0).displayText = "he") := by
  decide

end GTFamily
